import Mathlib

/-!
Verification of the OSC plugin library (lib/osc_lib.py) against its
natural-language specification.

The Python source is shallowly embedded: Python scalar values become the
PyBase inductive (floats are modelled as rationals, which is exact on every
value the properties exercise), one-level lists become PyVal, fallible
Python operations return Option, and caught exceptions become explicit
fallback branches mirroring the try/except structure of the source.
All definitions are executable and kernel-reducible, so concrete runs are
settled by decide.
-/

namespace OscLib

/-! ### Python scalar values -/

/-- A Python scalar value as used by the plugin: str, int, float, bool,
None, float inf, bytes.  Floats are modelled as rationals. -/
inductive PyBase where
  | pstr : List Char → PyBase
  | pint : Int → PyBase
  | pfloat : Rat → PyBase
  | pbool : Bool → PyBase
  | pnone : PyBase
  | pinf : PyBase
  | pbytes : List Char → PyBase
deriving DecidableEq

/-- A Python value flowing through the library: a scalar or a (flat) list
of scalars, which covers every value the source manipulates. -/
inductive PyVal where
  | scalar : PyBase → PyVal
  | plist : List PyBase → PyVal
deriving DecidableEq

/-- Python truthiness of a scalar. -/
def pyTruthyB : PyBase → Bool
  | .pstr s => !s.isEmpty
  | .pint n => n != 0
  | .pfloat q => q != 0
  | .pbool b => b
  | .pnone => false
  | .pinf => true
  | .pbytes s => !s.isEmpty

/-- Python truthiness. -/
def pyTruthy : PyVal → Bool
  | .scalar b => pyTruthyB b
  | .plist l => !l.isEmpty

/-- Decimal digits of a natural number (little helper for str(int)). -/
def natDigitsAux : Nat → Nat → List Char
  | 0, _ => []
  | _ + 1, 0 => []
  | fuel + 1, n =>
    natDigitsAux fuel (n / 10) ++ [Char.ofNat (48 + n % 10)]

/-- str() of a natural number. -/
def natToChars (n : Nat) : List Char :=
  if n = 0 then ['0'] else natDigitsAux (n + 1) n

/-- str() of a Python int. -/
def intToChars (n : Int) : List Char :=
  if n < 0 then '-' :: natToChars n.natAbs else natToChars n.natAbs

/-- str() of a Python float.  Exact for integral values (the only floats
the verified properties ever print); other values are rendered as an exact
fraction, which no verified property depends on. -/
def floatToChars (q : Rat) : List Char :=
  if q.den = 1 then intToChars q.num ++ ['.', '0']
  else intToChars q.num ++ '/' :: natToChars q.den

/-- str() of a Python scalar. -/
def pyStrB : PyBase → List Char
  | .pstr s => s
  | .pint n => intToChars n
  | .pfloat q => floatToChars q
  | .pbool b => if b then "True".data else "False".data
  | .pnone => "None".data
  | .pinf => "inf".data
  | .pbytes s => 'b' :: '\'' :: s ++ ['\'']

/-- repr() of a scalar, as used by str() of a list (strings get quotes). -/
def pyReprB : PyBase → List Char
  | .pstr s => '\'' :: s ++ ['\'']
  | b => pyStrB b

/-- Comma-join of rendered list elements. -/
def joinComma : List (List Char) → List Char
  | [] => []
  | [x] => x
  | x :: xs => x ++ ',' :: ' ' :: joinComma xs

/-- str() of a Python value. -/
def pyStr : PyVal → List Char
  | .scalar b => pyStrB b
  | .plist l => '[' :: joinComma (l.map pyReprB) ++ [']']

/-- Python str.lower() on one character (ASCII, which is all the plugin
feeds it). -/
def pyLowerChar (c : Char) : Char := Char.toLower c

/-- Python str.lower(). -/
def pyLower (s : List Char) : List Char := s.map pyLowerChar

/-- A whitespace character in the sense of Python str.strip(). -/
def isPySpace (c : Char) : Bool :=
  c = ' ' || c = '\t' || c = '\n' || c = '\r' || c = Char.ofNat 11 || c = Char.ofNat 12

/-- Python str.strip(). -/
def pyStrip (s : List Char) : List Char :=
  ((s.dropWhile isPySpace).reverse.dropWhile isPySpace).reverse

/-- Python str.split(sep) for a one-character separator. -/
def splitOnChar (sep : Char) : List Char → List (List Char)
  | [] => [[]]
  | c :: rest =>
    match splitOnChar sep rest with
    | [] => if c = sep then [[], []] else [[c]]
    | h :: t => if c = sep then [] :: h :: t else (c :: h) :: t

/-- Numeric value of a digit string. -/
def digitsVal (ds : List Char) : Nat :=
  ds.foldl (fun a c => a * 10 + (c.toNat - 48)) 0

/-- All characters are decimal digits. -/
def allDigits (ds : List Char) : Bool := ds.all Char.isDigit

/-- Python float(str): optional sign, decimal digits with an optional
fractional part (the forms the plugin's templates use); anything else
raises ValueError, modelled as none.  Integral results are built by a
single cast so they reduce in the kernel. -/
def parseFloatQ (s : List Char) : Option Rat :=
  let t := pyStrip s
  let signed : Bool × List Char :=
    match t with
    | '+' :: r => (false, r)
    | '-' :: r => (true, r)
    | _ => (false, t)
  let body := signed.2
  let mk : Rat → Rat := fun q => if signed.1 then -q else q
  match splitOnChar '.' body with
  | [ip] =>
    if ip ≠ [] ∧ allDigits ip then some (mk ((digitsVal ip : Nat) : Rat)) else none
  | [ip, fp] =>
    if (ip ≠ [] ∨ fp ≠ []) ∧ allDigits ip ∧ allDigits fp then
      if fp = [] then some (mk ((digitsVal ip : Nat) : Rat))
      else some (mk (((digitsVal (ip ++ fp) : Nat) : Rat) / ((10 ^ fp.length : Nat) : Rat)))
    else none
  | _ => none

/-- Python int(str): optional sign, decimal digits only; anything else
raises ValueError, modelled as none. -/
def parseIntZ (s : List Char) : Option Int :=
  let t := pyStrip s
  let signed : Bool × List Char :=
    match t with
    | '+' :: r => (false, r)
    | '-' :: r => (true, r)
    | _ => (false, t)
  let body := signed.2
  if body ≠ [] ∧ allDigits body then
    some (if signed.1 then -(digitsVal body : Int) else (digitsVal body : Int))
  else none

/-- Python int() applied to a float: truncation toward zero. -/
def pyTrunc (q : Rat) : Int := q.num.tdiv q.den

/-- Python float() builtin on a scalar; none models a raised
ValueError/TypeError. -/
def pyFloatOfB : PyBase → Option Rat
  | .pstr s => parseFloatQ s
  | .pint n => some (n : Rat)
  | .pfloat q => some q
  | .pbool b => some (if b then 1 else 0)
  | .pnone => none
  | .pinf => none
  | .pbytes s => parseFloatQ s

/-- Python float() builtin. -/
def pyFloatOf : PyVal → Option Rat
  | .scalar b => pyFloatOfB b
  | .plist _ => none

/-- Python int() builtin on a scalar; none models a raised
ValueError/TypeError. -/
def pyIntOfB : PyBase → Option Int
  | .pstr s => parseIntZ s
  | .pint n => some n
  | .pfloat q => some (pyTrunc q)
  | .pbool b => some (if b then 1 else 0)
  | .pnone => none
  | .pinf => none
  | .pbytes s => parseIntZ s

/-- Python int() builtin. -/
def pyIntOf : PyVal → Option Int
  | .scalar b => pyIntOfB b
  | .plist _ => none

/-- Python list indexing with negative-index wraparound; none models
IndexError. -/
def pyIndex {α : Type} (l : List α) (i : Int) : Option α :=
  if 0 ≤ i then l[i.toNat]?
  else
    let j : Int := (l.length : Int) + i
    if 0 ≤ j then l[j.toNat]? else none

/-- Does a character list start with the given character (str.startswith
for a one-character needle)? -/
def startsWithChar (c : Char) : List Char → Bool
  | [] => false
  | x :: _ => x = c

/-! ### The OSC type-tag enumeration (class OSCTypes) -/

/-- The OSCTypes enum of the source. -/
inductive OSCTypes where
  | Int | Float | String | Blob | BigInt | TimeTag | Double | Char
  | Color | Midi | TrueBit | FalseBit | Bool | Nil | Infinitum | Bare | Mixed
deriving DecidableEq

/-- The .value string of each OSCTypes member. -/
def oscValue : OSCTypes → List Char
  | .Int => ['i']
  | .Float => ['f']
  | .String => ['s']
  | .Blob => ['b']
  | .BigInt => ['h']
  | .TimeTag => ['t']
  | .Double => ['d']
  | .Char => ['c']
  | .Color => ['r']
  | .Midi => ['m']
  | .TrueBit => ['T']
  | .FalseBit => ['F']
  | .Bool => ['B']
  | .Nil => ['N']
  | .Infinitum => ['I']
  | .Bare => []
  | .Mixed => ['M']

/-! ### Template compiler: placeholder scanning and descriptor parsing -/

/-- Scanner state machine for the regex finding brace-delimited
placeholder spans with non-empty brace-free content: the second argument
holds the candidate content (reversed) once an opening brace was seen. -/
def scanDefsAux : List Char → Option (List Char) → List (List Char)
  | [], _ => []
  | c :: cs, none =>
    if c = '{' then scanDefsAux cs (some []) else scanDefsAux cs none
  | c :: cs, some acc =>
    if c = '}' then
      if acc = [] then scanDefsAux cs none else acc.reverse :: scanDefsAux cs none
    else if c = '{' then scanDefsAux cs (some [])
    else scanDefsAux cs (some (c :: acc))

/-- All placeholder definitions inside a template string, in order
(re.finditer of the brace pattern, keeping each group(1)). -/
def scanDefs (cs : List Char) : List (List Char) := scanDefsAux cs none

/-- parts = [p.strip() for p in ddef.split(",")] -/
def parseParts (ddef : List Char) : List (List Char) :=
  (splitOnChar ',' ddef).map pyStrip

/-- The optional arithmetic modifier of a numeric placeholder:
modifier = parts[6] if len(parts) > 6 else None, applied only when truthy;
leading *, /, +, - select the operation on float(modifier[1:]); none
models a raised conversion (or zero-division) error. -/
def applyModifier (m : List Char) (v : Rat) : Option Rat :=
  if startsWithChar '*' m then (parseFloatQ (m.drop 1)).map (fun k => v * k)
  else if startsWithChar '/' m then
    match parseFloatQ (m.drop 1) with
    | some k => if k = 0 then none else some (v / k)
    | none => none
  else if startsWithChar '+' m then (parseFloatQ (m.drop 1)).map (fun k => v + k)
  else if startsWithChar '-' m then (parseFloatQ (m.drop 1)).map (fun k => v - k)
  else some v

/-- val = float(raw_val), then the optional trailing modifier, in that
order; none models a raised exception inside the try block. -/
def coerceNumericVal (parts : List (List Char)) (raw : PyVal) : Option Rat :=
  match pyFloatOf raw with
  | none => none
  | some v =>
    match parts[6]? with
    | none => some v
    | some m => if m = [] then some v else applyModifier m v

/-- The Bool placeholder coercion of the template engine:
bool(raw_val and str(raw_val).lower() not in ["false", "0", "no"]). -/
def boolCoerceB (raw : PyVal) : Bool :=
  pyTruthy raw && decide (pyLower (pyStr raw) ∉ ["false".data, "0".data, "no".data])

/-- The Enum/Array placeholder coercion:
options = parts[3].split(";"); options[int(raw_val)].strip(); none models
any raised exception (missing field, bad index literal, range error). -/
def coerceEnum (parts : List (List Char)) (raw : PyVal) : Option (List Char) :=
  match parts[3]? with
  | none => none
  | some optsField =>
    let options := splitOnChar ';' optsField
    match pyIntOf raw with
    | none => none
    | some idx =>
      match pyIndex options idx with
      | none => none
      | some o => some (pyStrip o)

/-- One placeholder substitution in the VALUE loop of
oscAction.action_callback: returns the replacement value and whether the
except-branch ran (a diagnostic was logged and str(raw_val) substituted). -/
def substValue (ddef : List Char) (raw : PyVal) : PyVal × Bool :=
  let parts := parseParts ddef
  let pt := parts.headD []
  if pt = ['I'] ∨ pt = ['F'] then
    match coerceNumericVal parts raw with
    | some v =>
      (if pt = ['I'] then .scalar (.pint (pyTrunc v)) else .scalar (.pfloat v), false)
    | none => (.scalar (.pstr (pyStr raw)), true)
  else if pt = ['B'] then
    (.scalar (.pstr (if boolCoerceB raw then "True".data else "False".data)), false)
  else if pt = ['A'] then
    match coerceEnum parts raw with
    | some s => (.scalar (.pstr s), false)
    | none => (.scalar (.pstr (pyStr raw)), true)
  else (.scalar (.pstr (pyStr raw)), false)

/-- One placeholder substitution in the PATH loop of
oscAction.action_callback: returns the textual replacement and whether the
except-branch ran.  Identical to the value loop except that numeric
results are rendered as text. -/
def substPath (ddef : List Char) (raw : PyVal) : List Char × Bool :=
  let parts := parseParts ddef
  let pt := parts.headD []
  if pt = ['I'] ∨ pt = ['F'] then
    match coerceNumericVal parts raw with
    | some v =>
      (if pt = ['I'] then intToChars (pyTrunc v) else floatToChars v, false)
    | none => (pyStr raw, true)
  else if pt = ['B'] then
    (if boolCoerceB raw then "True".data else "False".data, false)
  else if pt = ['A'] then
    match coerceEnum parts raw with
    | some s => (s, false)
    | none => (pyStr raw, true)
  else (pyStr raw, false)

/-! ### Action runtime: oscAction.action_callback -/

/-- Externally visible outcome of one action invocation: the arguments the
completion callback received (in order), the number of Sender calls, the
number of diagnostics logged, and whether an exception escaped. -/
structure InvokeResult where
  callbackCalls : List Bool
  senderCalls : Nat
  diags : Nat
  raised : Bool
deriving DecidableEq

/-- expected_total = 1 + len(path_defs) + len(value_defs). -/
def expectedTotal (path : List Char) (valueTemplates : List (List Char)) : Nat :=
  1 + (scanDefs path).length
    + (valueTemplates.foldl (fun a v => a ++ scanDefs v) []).length

/-- oscAction.action_callback, invoked with the completion callback
followed by dynArgs.  transmitOk tells whether the raw datagram transmit
inside send succeeds; a transmit failure is caught inside send and logged
there.  The arity guard logs and returns without touching the callback;
otherwise every substitution error is caught in its own try block with a
diagnostic and a string fallback, _send_osc_action runs send (which
swallows its own errors) and then calls callback(True). -/
def action_invoke (path : List Char) (valueTemplates : List (List Char))
    (val_type : OSCTypes) (transmitOk : Bool) (dynArgs : List PyVal) : InvokeResult :=
  let path_defs := scanDefs path
  let value_defs := valueTemplates.foldl (fun a v => a ++ scanDefs v) []
  let expected_total := 1 + path_defs.length + value_defs.length
  if 1 + dynArgs.length < expected_total then
    { callbackCalls := [], senderCalls := 0, diags := 1, raised := false }
  else
    let dyn := dynArgs.take (expected_total - 1)
    let pathDiags :=
      ((path_defs.enum.map fun p => (substPath p.2 (dyn.getD p.1 (.scalar .pnone))).2).count true)
    let doValues : Bool :=
      val_type != OSCTypes.Bare && !valueTemplates.isEmpty && !value_defs.isEmpty
    let valueDiags :=
      if doValues then
        ((value_defs.enum.map fun p =>
          (substValue p.2 (dyn.getD (path_defs.length + p.1) (.scalar .pnone))).2).count true)
      else 0
    let sendDiags := if transmitOk then 0 else 1
    { callbackCalls := [true], senderCalls := 1,
      diags := pathDiags + valueDiags + sendDiags, raised := false }

/-! ### Sender: value encoding in send -/

/-- isinstance(val, int): in Python bool is a subclass of int. -/
def isinstInt : PyBase → Bool
  | .pint _ => true
  | .pbool _ => true
  | _ => false

/-- isinstance(val, float). -/
def isinstFloat : PyBase → Bool
  | .pfloat _ => true
  | _ => false

/-- isinstance(val, bool). -/
def isinstBool : PyBase → Bool
  | .pbool _ => true
  | _ => false

/-- isinstance(val, str). -/
def isinstStr : PyBase → Bool
  | .pstr _ => true
  | _ => false

/-- Python int() on a value the int arm of the Mixed chain receives
(ints and bools), where it cannot raise. -/
def pyIntArm : PyBase → Int
  | .pint n => n
  | .pbool b => if b then 1 else 0
  | .pfloat q => pyTrunc q
  | _ => 0

/-- Python float() on a value the float arm receives. -/
def pyFloatArm : PyBase → Rat
  | .pfloat q => q
  | .pint n => (n : Rat)
  | .pbool b => if b then 1 else 0
  | _ => 0

/-- One element of the Mixed ("M") branch of send: the isinstance chain
int / float / bool / str / list / default-str, in source order. -/
def mixedEncodeElem (val : PyBase) : PyBase :=
  if isinstInt val then .pint (pyIntArm val)
  else if isinstFloat val then .pfloat (pyFloatArm val)
  else if isinstBool val then .pbool (pyTruthyB val)
  else if isinstStr val then .pstr (pyStrB val)
  else .pstr (pyStrB val)

/-- One scalar coercion of the per-tag chain in send; none models a raised
exception, which send's outer try/except catches and logs.  The "r" arm
subscripts and multiplies its argument, which always raises on a scalar. -/
def sendEncodeElem (tag : List Char) (val : PyBase) : Option PyBase :=
  if tag = ['i'] then (pyIntOfB val).map .pint
  else if tag = ['f'] then (pyFloatOfB val).map .pfloat
  else if tag = ['B'] then some (.pbool (val = .pstr "True".data))
  else if tag = ['s'] then some (.pstr (pyStrB val))
  else if tag = ['h'] then (pyIntOfB val).map .pint
  else if tag = ['d'] then (pyFloatOfB val).map .pfloat
  else if tag = ['c'] then
    some (.pstr (match pyStrB val with | [] => [Char.ofNat 0] | c :: _ => [c]))
  else if tag = ['b'] then
    some (match val with | .pbytes b => .pbytes b | v => .pbytes (pyStrB v))
  else if tag = ['r'] then none
  else if tag = ['m'] then
    if pyTruthyB val then (pyIntOfB val).map .pint else some (.pint 0)
  else if tag = ['t'] then
    if pyTruthyB val then (pyIntOfB val).map .pint else some (.pint 0)
  else if tag = ['N'] then some .pnone
  else if tag = ['I'] then some .pinf
  else some (.pstr (pyStrB val))

/-! ### Sender: socket lifecycle in send -/

/-- Observable effects of the datagram-and-socket tail of send (lines
creating the socket, transmitting, scheduling the status push, closing).
The three flags say whether each step succeeds; a raised step jumps to the
except handler, which logs and returns, so no exception escapes. -/
structure SendTailResult where
  sockOpened : Bool
  transmitted : Bool
  pushScheduled : Bool
  sockClosed : Bool
  errorLogged : Bool
  raised : Bool
deriving DecidableEq

/-- sock = socket(...); sock.sendto(...); safe_push_output(plugin);
sock.close() inside the enclosing try/except of send. -/
def send_tail (openOk sendtoOk pushOk : Bool) : SendTailResult :=
  if openOk then
    if sendtoOk then
      if pushOk then
        { sockOpened := true, transmitted := true, pushScheduled := true,
          sockClosed := true, errorLogged := false, raised := false }
      else
        { sockOpened := true, transmitted := true, pushScheduled := false,
          sockClosed := false, errorLogged := true, raised := false }
    else
      { sockOpened := true, transmitted := false, pushScheduled := false,
        sockClosed := false, errorLogged := true, raised := false }
  else
    { sockOpened := false, transmitted := false, pushScheduled := false,
      sockClosed := false, errorLogged := true, raised := false }

/-! ### Color packing: rgb_floats_to_rgba_int -/

/-- One channel: int(max(0, min(255, x * 255))).  The clamp makes the
result a natural number in [0, 255]. -/
def clampChannel (x : Rat) : Nat := (pyTrunc (max 0 (min 255 (x * 255)))).toNat

/-- rgb_floats_to_rgba_int: (r << 24) | (g << 16) | (b << 8) | a after
scaling each component by 255, clamping to [0, 255] and truncating. -/
def rgb_floats_to_rgba_int (r g b a : Rat) : Nat :=
  (clampChannel r <<< 24) ||| (clampChannel g <<< 16) ||| (clampChannel b <<< 8)
    ||| clampChannel a

/-! ### Custom action: oscCustomAction -/

/-- value_type_options of oscCustomAction. -/
def valueTypeOptions : List (List Char) :=
  ["Int".data, "Float".data, "String".data, "Bool".data]

/-- The Bool arm of oscCustomAction.action_callback:
str(value).lower() in ["true", "True", "1", "yes", "on"]. -/
def customBoolCoerce (value : PyVal) : Bool :=
  decide (pyLower (pyStr value) ∈
    ["true".data, "True".data, "1".data, "yes".data, "on".data])

/-! ### Listener lifecycle: enable and the bind loop -/

/-- The lifecycle state observable around enable and _main_loop: the
_should_run and _listener_enabled flags, plus counters for started
background loops, bind attempts and logged diagnostics. -/
structure SPOSCState where
  should_run : Bool
  listener_enabled : Bool
  loopsStarted : Nat
  bindAttempts : Nat
  diags : Nat
deriving DecidableEq

/-- The state of a freshly constructed SPOSC. -/
def initState : SPOSCState :=
  { should_run := false, listener_enabled := false,
    loopsStarted := 0, bindAttempts := 0, diags := 0 }

/-- enable(): logs and returns if _should_run is already set, otherwise
sets it and starts one background loop thread. -/
def enable (s : SPOSCState) : SPOSCState :=
  if s.should_run then { s with diags := s.diags + 1 }
  else { s with should_run := true, loopsStarted := s.loopsStarted + 1 }

/-- One iteration of _main_loop: while _should_run, attempt a listener
startup only when not already bound; _start_listener sets
_listener_enabled to the bind outcome. -/
def loopIter (bindOk : Bool) (s : SPOSCState) : SPOSCState :=
  if s.should_run then
    if !s.listener_enabled then
      { s with bindAttempts := s.bindAttempts + 1, listener_enabled := bindOk }
    else s
  else s

/-- n iterations of _main_loop; the oracle gives the outcome of each bind
attempt, indexed by how many attempts happened before it. -/
def runLoop (bindOk : Nat → Bool) : Nat → SPOSCState → SPOSCState
  | 0, s => s
  | n + 1, s => runLoop bindOk n (loopIter (bindOk s.bindAttempts) s)

/-! ### Listener lifecycle: disable and its bounded waits -/

/-- Time spent in one bounded wait: the waited-on event either fires at
time t (the wait returns at min of t, clamped below by 0, and the
timeout) or never fires (the wait returns at the timeout). -/
def waitElapsed (doneAt : Option Rat) (timeout : Rat) : Rat :=
  match doneAt with
  | none => timeout
  | some t => min (max t 0) timeout

/-- Environment of one disable() call: whether the instance is running,
whether a background thread exists, when (if ever) the marshalled
shutdown sets its completion event, and when (if ever) the background
thread exits. -/
structure DisableCtx where
  shouldRun : Bool
  hasThread : Bool
  shutdownDoneAt : Option Rat
  threadDoneAt : Option Rat

/-- Caller-observed time spent inside disable(): an early return when
already disabled, otherwise shutdown_complete.wait(timeout=2.0) followed
by _thread.join(timeout=2.0). -/
def disableElapsed (c : DisableCtx) : Rat :=
  if c.shouldRun then
    waitElapsed c.shutdownDoneAt 2 + (if c.hasThread then waitElapsed c.threadDoneAt 2 else 0)
  else 0

/-! ## Helper lemmas -/

theorem toNat_ofNatAux (n : Nat) (h : n.isValidChar) : (Char.ofNatAux n h).toNat = n := by
  simp [Char.ofNatAux, Char.toNat, UInt32.toNat]

theorem toLower_ne_T (c : Char) : Char.toLower c ≠ 'T' := by
  intro heq
  by_cases h : c.toNat ≥ 65 ∧ c.toNat ≤ 90
  · have hval : (Char.toLower c).toNat = c.toNat + 32 := by
      rw [Char.toLower]
      simp only [if_pos h]
      rw [Char.ofNat, dif_pos (Or.inl (show c.toNat + 32 < 55296 by omega))]
      exact toNat_ofNatAux _ _
    rw [heq] at hval
    have h84 : ('T' : Char).toNat = 84 := by decide
    omega
  · rw [Char.toLower] at heq
    simp only [if_neg h] at heq
    subst heq
    exact h (by decide)

theorem pyLower_ne_True (s : List Char) : pyLower s ≠ "True".data := by
  cases s with
  | nil => decide
  | cons c cs =>
    intro h
    rw [show "True".data = 'T' :: 'r' :: 'u' :: 'e' :: [] from rfl] at h
    simp only [pyLower, pyLowerChar, List.map_cons] at h
    injection h with h1 _
    exact toLower_ne_T c h1

theorem substValue_F_mod2 (raw : PyVal) (v : Rat) (h : pyFloatOf raw = some v) :
    substValue "F,x,0,0,100,%,*2".data raw = (.scalar (.pfloat (v * 2)), false) := by
  have hparts : parseParts "F,x,0,0,100,%,*2".data =
      [['F'], ['x'], ['0'], ['0'], ['1', '0', '0'], ['%'], ['*', '2']] := by decide
  have h2 : parseFloatQ ['2'] = some 2 := by decide
  simp only [substValue, coerceNumericVal, hparts, h, applyModifier]
  norm_num [startsWithChar, h2]
  rw [if_neg (by decide : ¬((['*', '2'] : List Char) = []))]
  rfl

theorem substValue_I_mod2 (raw : PyVal) (v : Rat) (h : pyFloatOf raw = some v) :
    substValue "I,x,0,0,100,,*2".data raw = (.scalar (.pint (pyTrunc (v * 2))), false) := by
  have hparts : parseParts "I,x,0,0,100,,*2".data =
      [['I'], ['x'], ['0'], ['0'], ['1', '0', '0'], [], ['*', '2']] := by decide
  have h2 : parseFloatQ ['2'] = some 2 := by decide
  simp only [substValue, coerceNumericVal, hparts, h, applyModifier]
  norm_num [startsWithChar, h2]
  rw [if_neg (by decide : ¬((['*', '2'] : List Char) = []))]

theorem pyTrunc_le (q : Rat) (n : Nat) (h0 : 0 ≤ q) (h : q ≤ (n : Rat)) :
    pyTrunc q ≤ (n : Int) := by
  have hnum : 0 ≤ q.num := Rat.num_nonneg.mpr h0
  have hden : 0 < q.den := q.den_pos
  have hden' : ((q.den : Rat)) ≠ 0 := by positivity
  have hq : (q.num : Rat) = q * (q.den : Rat) := (div_eq_iff hden').mp (Rat.num_div_den q)
  have hle : (q.num : Rat) ≤ ((n * q.den : Nat) : Rat) := by
    rw [hq]
    push_cast
    have := mul_le_mul_of_nonneg_right h (show (0 : Rat) ≤ (q.den : Rat) by positivity)
    linarith
  have hle2 : q.num ≤ ((n * q.den : Nat) : Int) := by exact_mod_cast hle
  obtain ⟨m, hm⟩ : ∃ m : Nat, q.num = (m : Int) :=
    ⟨q.num.toNat, (Int.toNat_of_nonneg hnum).symm⟩
  rw [hm] at hle2
  have hmle : m ≤ n * q.den := by exact_mod_cast hle2
  have hdiv : (m : Int).tdiv (q.den : Int) = ((m / q.den : Nat) : Int) := rfl
  unfold pyTrunc
  rw [hm, hdiv]
  have : m / q.den ≤ n := by
    calc m / q.den ≤ (n * q.den) / q.den := Nat.div_le_div_right hmle
    _ = n := Nat.mul_div_cancel n hden
  exact_mod_cast this

theorem clampChannel_le (x : Rat) : clampChannel x ≤ 255 := by
  have h0 : (0 : Rat) ≤ max 0 (min 255 (x * 255)) := le_max_left 0 _
  have h255 : max 0 (min 255 (x * 255)) ≤ ((255 : Nat) : Rat) := by
    apply max_le
    · norm_num
    · have := min_le_left (255 : Rat) (x * 255)
      push_cast
      linarith
  have := pyTrunc_le _ 255 h0 h255
  unfold clampChannel
  omega

theorem pack_eq_sum (r g b a : Rat) :
    rgb_floats_to_rgba_int r g b a =
      clampChannel r * 2 ^ 24 + clampChannel g * 2 ^ 16 + clampChannel b * 2 ^ 8
        + clampChannel a := by
  have hg := clampChannel_le g
  have hb := clampChannel_le b
  have ha := clampChannel_le a
  unfold rgb_floats_to_rgba_int
  rw [Nat.shiftLeft_eq, Nat.shiftLeft_eq, Nat.shiftLeft_eq]
  have e1 : clampChannel r * 2 ^ 24 ||| clampChannel g * 2 ^ 16
      = clampChannel r * 2 ^ 24 + clampChannel g * 2 ^ 16 := by
    have hlt : clampChannel g * 2 ^ 16 < 2 ^ 24 := by
      have : clampChannel g * 2 ^ 16 ≤ 255 * 2 ^ 16 := Nat.mul_le_mul_right _ hg
      omega
    calc clampChannel r * 2 ^ 24 ||| clampChannel g * 2 ^ 16
        = 2 ^ 24 * clampChannel r ||| clampChannel g * 2 ^ 16 := by rw [Nat.mul_comm]
      _ = 2 ^ 24 * clampChannel r + clampChannel g * 2 ^ 16 :=
        (Nat.mul_add_lt_is_or hlt _).symm
      _ = clampChannel r * 2 ^ 24 + clampChannel g * 2 ^ 16 := by rw [Nat.mul_comm]
  have e2 : clampChannel r * 2 ^ 24 + clampChannel g * 2 ^ 16 ||| clampChannel b * 2 ^ 8
      = clampChannel r * 2 ^ 24 + clampChannel g * 2 ^ 16 + clampChannel b * 2 ^ 8 := by
    have hlt : clampChannel b * 2 ^ 8 < 2 ^ 16 := by
      have : clampChannel b * 2 ^ 8 ≤ 255 * 2 ^ 8 := Nat.mul_le_mul_right _ hb
      omega
    have hfac : clampChannel r * 2 ^ 24 + clampChannel g * 2 ^ 16
        = 2 ^ 16 * (clampChannel r * 2 ^ 8 + clampChannel g) := by ring
    rw [hfac, ← Nat.mul_add_lt_is_or hlt]
  have e3 : clampChannel r * 2 ^ 24 + clampChannel g * 2 ^ 16 + clampChannel b * 2 ^ 8
        ||| clampChannel a
      = clampChannel r * 2 ^ 24 + clampChannel g * 2 ^ 16 + clampChannel b * 2 ^ 8
        + clampChannel a := by
    have hlt : clampChannel a < 2 ^ 8 := by omega
    have hfac : clampChannel r * 2 ^ 24 + clampChannel g * 2 ^ 16 + clampChannel b * 2 ^ 8
        = 2 ^ 8 * (clampChannel r * 2 ^ 16 + clampChannel g * 2 ^ 8 + clampChannel b) := by
      ring
    rw [hfac, ← Nat.mul_add_lt_is_or hlt]
  rw [e1, e2, e3]

theorem pack_lt (r g b a : Rat) : rgb_floats_to_rgba_int r g b a < 2 ^ 32 := by
  rw [pack_eq_sum]
  have hr := clampChannel_le r
  have hg := clampChannel_le g
  have hb := clampChannel_le b
  have ha := clampChannel_le a
  have h32 : (2 : Nat) ^ 32 = 4294967296 := by norm_num
  rw [h32]
  nlinarith

theorem clampChannel_in_range (x : Rat) (h0 : 0 ≤ x) (h1 : x ≤ 1) :
    (clampChannel x : Int) = pyTrunc (x * 255) := by
  unfold clampChannel
  have hub : x * 255 ≤ 255 := by nlinarith
  have hlb : (0 : Rat) ≤ x * 255 := by positivity
  rw [min_eq_right hub, max_eq_right hlb]
  exact Int.toNat_of_nonneg (Int.tdiv_nonneg (Rat.num_nonneg.mpr hlb) (by positivity))

theorem runLoop_stable (f : Nat → Bool) (n : Nat) (s : SPOSCState)
    (h : s.listener_enabled = true) : runLoop f n s = s := by
  induction n with
  | zero => rfl
  | succ k ih =>
    show runLoop f k (loopIter (f s.bindAttempts) s) = s
    have hiter : loopIter (f s.bindAttempts) s = s := by
      unfold loopIter
      rw [h]
      simp
    rw [hiter, ih]

theorem waitElapsed_bounds (d : Option Rat) (t : Rat) (ht : 0 ≤ t) :
    0 ≤ waitElapsed d t ∧ waitElapsed d t ≤ t := by
  cases d with
  | none => exact ⟨ht, le_refl t⟩
  | some x =>
    constructor
    · exact le_min (le_max_right x 0) ht
    · exact min_le_right _ _

/-! ## Claim theorems -/

/-- Claim C1, counterexample: invoking the registered one-descriptor action
with no dynamic argument makes the arity guard log and return without
calling the completion callback at all, so callback(false) is not called. -/
theorem claim1_counterexample :
    (action_invoke "/x".data ['{' :: "I,Index,0,0,999".data ++ ['}']]
      OSCTypes.Int true []).callbackCalls = [] ∧
    (action_invoke "/x".data ['{' :: "I,Index,0,0,999".data ++ ['}']]
      OSCTypes.Int true []).callbackCalls ≠ [false] := by
  decide

/-- Claim C1 as amended: invoking a templated action needing N descriptors
with fewer than N dynamic arguments (after the completion callback) emits
exactly one diagnostic, performs no Sender call and never raises, but
returns without invoking the completion callback at all. -/
theorem claim1_arity_guard (path : List Char) (vts : List (List Char)) (vt : OSCTypes)
    (tok : Bool) (dyn : List PyVal) (h : 1 + dyn.length < expectedTotal path vts) :
    action_invoke path vts vt tok dyn =
      { callbackCalls := [], senderCalls := 0, diags := 1, raised := false } := by
  unfold expectedTotal at h
  unfold action_invoke
  rw [if_pos h]

/-- Claim C1 witness: the amended arity guard at a concrete short invocation. -/
theorem claim1_arity_guard_witness :
    1 + ([] : List PyVal).length <
      expectedTotal "/x".data ['{' :: "I,Index,0,0,999".data ++ ['}']] ∧
    action_invoke "/x".data ['{' :: "I,Index,0,0,999".data ++ ['}']]
        OSCTypes.Int true [] =
      { callbackCalls := [], senderCalls := 0, diags := 1, raised := false } :=
  ⟨by decide, claim1_arity_guard _ _ _ _ _ (by decide)⟩

/-- Claim C2, counterexample: with sufficient arity, an out-of-range enum
index (a coercion failure, witnessed by the diagnostic) still ends in
callback(true) and one Sender call, and a send failure also ends in
callback(true) — never callback(false). -/
theorem claim2_counterexample :
    action_invoke "/y".data ['{' :: "A,Opt,0,a;b".data ++ ['}']]
        OSCTypes.Int true [.scalar (.pstr ['5'])] =
      { callbackCalls := [true], senderCalls := 1, diags := 1, raised := false } ∧
    (action_invoke "/y".data ['{' :: "A,Opt,0,a;b".data ++ ['}']]
        OSCTypes.Int false [.scalar (.pstr ['5'])]).callbackCalls = [true] ∧
    ([true] : List Bool) ≠ [false] := by
  decide

/-- Claim C2 as amended: for every templated action invocation with
sufficient arity the completion callback is always called with true and
exactly one Sender call happens, whatever the coercion results and whether
or not the transmit succeeds: substitution errors are caught per
placeholder with a fallback, and send errors are swallowed inside send. -/
theorem claim2_callback_always_true (path : List Char) (vts : List (List Char))
    (vt : OSCTypes) (tok : Bool) (dyn : List PyVal)
    (h : ¬ (1 + dyn.length < expectedTotal path vts)) :
    (action_invoke path vts vt tok dyn).callbackCalls = [true] ∧
    (action_invoke path vts vt tok dyn).senderCalls = 1 ∧
    (action_invoke path vts vt tok dyn).raised = false := by
  unfold expectedTotal at h
  unfold action_invoke
  rw [if_neg h]
  exact ⟨rfl, rfl, rfl⟩

/-- Claim C2 witness: the amended always-true behaviour at a concrete
sufficient-arity invocation. -/
theorem claim2_callback_always_true_witness :
    ¬ (1 + ([PyVal.scalar (.pstr ['5'])] : List PyVal).length <
        expectedTotal "/y".data ['{' :: "A,Opt,0,a;b".data ++ ['}']]) ∧
    ((action_invoke "/y".data ['{' :: "A,Opt,0,a;b".data ++ ['}']]
        OSCTypes.Int true [.scalar (.pstr ['5'])]).callbackCalls = [true] ∧
     (action_invoke "/y".data ['{' :: "A,Opt,0,a;b".data ++ ['}']]
        OSCTypes.Int true [.scalar (.pstr ['5'])]).senderCalls = 1 ∧
     (action_invoke "/y".data ['{' :: "A,Opt,0,a;b".data ++ ['}']]
        OSCTypes.Int true [.scalar (.pstr ['5'])]).raised = false) :=
  ⟨by decide, claim2_callback_always_true _ _ _ _ _ (by decide)⟩

/-- Claim C3: numeric placeholder coercion parses the value, then applies
the trailing modifier, and only then does the Int kind truncate while the
Float kind keeps the value; in particular the two descriptors of the claim
map the raw string 10 to 20.0 and to the integer 20. -/
theorem claim3_numeric_modifier_order :
    (∀ (raw : PyVal) (v : Rat), pyFloatOf raw = some v →
      substValue "F,x,0,0,100,%,*2".data raw = (.scalar (.pfloat (v * 2)), false) ∧
      substValue "I,x,0,0,100,,*2".data raw = (.scalar (.pint (pyTrunc (v * 2))), false)) ∧
    substValue "F,x,0,0,100,%,*2".data (.scalar (.pstr "10".data)) =
      (.scalar (.pfloat 20), false) ∧
    substValue "I,x,0,0,100,,*2".data (.scalar (.pstr "10".data)) =
      (.scalar (.pint 20), false) := by
  refine ⟨fun raw v h => ⟨substValue_F_mod2 raw v h, substValue_I_mod2 raw v h⟩, ?_, ?_⟩
  · rw [substValue_F_mod2 _ 10 (by decide)]
    norm_num
  · rw [substValue_I_mod2 _ 10 (by decide)]
    norm_num [pyTrunc]

/-- Claim C3 witness: the general modifier-order statement applied at the
raw string 10. -/
theorem claim3_numeric_modifier_order_witness :
    pyFloatOf (.scalar (.pstr "10".data)) = some 10 ∧
    (substValue "F,x,0,0,100,%,*2".data (.scalar (.pstr "10".data)) =
      (.scalar (.pfloat ((10 : Rat) * 2)), false) ∧
     substValue "I,x,0,0,100,,*2".data (.scalar (.pstr "10".data)) =
      (.scalar (.pint (pyTrunc ((10 : Rat) * 2))), false)) :=
  ⟨by decide, claim3_numeric_modifier_order.1 _ 10 (by decide)⟩

/-- Claim C4, counterexample: the empty string coerces to false although
its lower-cased textual form is not one of false, 0, no — the claimed
if-and-only-if characterisation fails on falsy raw values. -/
theorem claim4_counterexample :
    boolCoerceB (.scalar (.pstr [])) = false ∧
    pyLower (pyStr (PyVal.scalar (.pstr []))) ∉ ["false".data, "0".data, "no".data] := by
  decide

/-- Claim C4 as amended: Bool placeholder coercion yields false exactly
when the raw value is falsy or its lower-cased textual form is one of
false, 0, no; the engine substitutes the textual form True/False, and
send's B branch turns exactly that textual form into the boolean wire
value; the claimed concrete vectors 0, false, 1 behave as stated. -/
theorem claim4_bool_normalization :
    (∀ raw : PyVal,
      (boolCoerceB raw = false ↔
        (pyTruthy raw = false ∨ pyLower (pyStr raw) ∈ ["false".data, "0".data, "no".data])) ∧
      substValue "B,Flag,0".data raw =
        (.scalar (.pstr (if boolCoerceB raw then "True".data else "False".data)), false) ∧
      sendEncodeElem ['B'] (.pstr (if boolCoerceB raw then "True".data else "False".data)) =
        some (.pbool (boolCoerceB raw))) ∧
    boolCoerceB (.scalar (.pstr ['0'])) = false ∧
    boolCoerceB (.scalar (.pstr "false".data)) = false ∧
    boolCoerceB (.scalar (.pstr ['1'])) = true := by
  refine ⟨fun raw => ⟨?_, ?_, ?_⟩, by decide, by decide, by decide⟩
  · unfold boolCoerceB
    rcases Bool.eq_false_or_eq_true (pyTruthy raw) with h | h <;> simp [h] <;> tauto
  · have hparts : parseParts "B,Flag,0".data = [['B'], "Flag".data, ['0']] := by decide
    unfold substValue
    rw [hparts]
    rw [if_neg (by decide), if_pos (by decide)]
  · rcases Bool.eq_false_or_eq_true (boolCoerceB raw) with h | h <;> rw [h] <;> decide

/-- Claim C5: the color packer decomposes as the shifted sum of the four
channels (each scaled by 255, clamped and truncated), fits in 32 bits, is
the plain scaled truncation on in-range components, and packs opaque red
to the stated constant. -/
theorem claim5_color_packing (r g b a : Rat)
    (hr0 : 0 ≤ r) (hr1 : r ≤ 1) (hg0 : 0 ≤ g) (hg1 : g ≤ 1)
    (hb0 : 0 ≤ b) (hb1 : b ≤ 1) (ha0 : 0 ≤ a) (ha1 : a ≤ 1) :
    rgb_floats_to_rgba_int r g b a =
      clampChannel r * 2 ^ 24 + clampChannel g * 2 ^ 16 + clampChannel b * 2 ^ 8
        + clampChannel a ∧
    rgb_floats_to_rgba_int r g b a < 2 ^ 32 ∧
    (clampChannel r : Int) = pyTrunc (r * 255) ∧
    (clampChannel g : Int) = pyTrunc (g * 255) ∧
    (clampChannel b : Int) = pyTrunc (b * 255) ∧
    (clampChannel a : Int) = pyTrunc (a * 255) ∧
    rgb_floats_to_rgba_int 1 0 0 1 = 0xFF0000FF :=
  ⟨pack_eq_sum r g b a, pack_lt r g b a,
   clampChannel_in_range r hr0 hr1, clampChannel_in_range g hg0 hg1,
   clampChannel_in_range b hb0 hb1, clampChannel_in_range a ha0 ha1,
   by norm_num [rgb_floats_to_rgba_int, clampChannel, pyTrunc]
      decide⟩

/-- Claim C5 witness: the color packing statement applied to opaque red. -/
theorem claim5_color_packing_witness :
    (0 : Rat) ≤ 1 ∧ (1 : Rat) ≤ 1 ∧ (0 : Rat) ≤ 0 ∧
    (rgb_floats_to_rgba_int 1 0 0 1 =
      clampChannel 1 * 2 ^ 24 + clampChannel 0 * 2 ^ 16 + clampChannel 0 * 2 ^ 8
        + clampChannel 1 ∧
     rgb_floats_to_rgba_int 1 0 0 1 < 2 ^ 32 ∧
     (clampChannel 1 : Int) = pyTrunc (1 * 255) ∧
     (clampChannel 0 : Int) = pyTrunc (0 * 255) ∧
     (clampChannel 0 : Int) = pyTrunc (0 * 255) ∧
     (clampChannel 1 : Int) = pyTrunc (1 * 255) ∧
     rgb_floats_to_rgba_int 1 0 0 1 = 0xFF0000FF) :=
  ⟨by decide, by decide, by decide,
   claim5_color_packing 1 0 0 1 (by decide) (by decide) (by decide) (by decide)
     (by decide) (by decide) (by decide) (by decide)⟩

/-- Claim C6: in the Mixed wire-encoding chain the isinstance(val, int)
arm is checked first and Python bool is a subclass of int, so boolean
elements are encoded as Int 1/0 and the explicit bool arm can never fire;
the int, float, string and default arms work as described. -/
theorem claim6_bool_encodes_as_int :
    mixedEncodeElem (.pbool true) = .pint 1 ∧
    mixedEncodeElem (.pbool false) = .pint 0 ∧
    (∀ (v : PyBase) (b : Bool), mixedEncodeElem v ≠ .pbool b) ∧
    (∀ n : Int, mixedEncodeElem (.pint n) = .pint n) ∧
    (∀ q : Rat, mixedEncodeElem (.pfloat q) = .pfloat q) ∧
    (∀ s : List Char, mixedEncodeElem (.pstr s) = .pstr s) ∧
    mixedEncodeElem .pnone = .pstr "None".data := by
  refine ⟨by decide, by decide, ?_, ?_, ?_, ?_, by decide⟩
  · intro v b
    cases v <;>
      simp [mixedEncodeElem, isinstInt, isinstFloat, isinstBool, isinstStr,
        pyIntArm, pyFloatArm]
  · intro n
    rfl
  · intro q
    rfl
  · intro s
    rfl

/-- Claim C7, counterexample: when the transmit step raises, send catches
and logs the error and raises nothing, but the freshly opened socket is
not closed — release is not unconditional. -/
theorem claim7_counterexample :
    (send_tail true false true).sockOpened = true ∧
    (send_tail true false true).sockClosed = false ∧
    (send_tail true false true).raised = false ∧
    (send_tail true false true).errorLogged = true := by
  decide

/-- Claim C7 as amended: send opens a fresh socket per call and never lets
an exception escape, but the socket is closed exactly when every step up
to and including the close succeeds; on any failure the error is logged
and the socket leaks. -/
theorem claim7_socket_release :
    ∀ o s p : Bool,
      (send_tail o s p).sockOpened = o ∧
      (send_tail o s p).raised = false ∧
      (send_tail o s p).sockClosed = (o && s && p) ∧
      (send_tail o s p).errorLogged = !(o && s && p) := by
  decide

/-- Claim C8, counterexample: against a fully unresponsive scheduler the
caller of disable() waits the 2-unit event timeout and then the 2-unit
thread join timeout, 4 time units in total — more than the claimed 2. -/
theorem claim8_counterexample :
    disableElapsed
      { shouldRun := true, hasThread := true,
        shutdownDoneAt := none, threadDoneAt := none } = 4 ∧
    ¬ (disableElapsed
      { shouldRun := true, hasThread := true,
        shutdownDoneAt := none, threadDoneAt := none } ≤ 2) := by
  constructor <;> norm_num [disableElapsed, waitElapsed]

/-- Claim C8 as amended: disable() always returns within 4 time units —
a bounded 2-unit wait for the shutdown-complete event followed by a
bounded 2-unit thread join — however unresponsive the scheduler is. -/
theorem claim8_disable_bounded (c : DisableCtx) :
    0 ≤ disableElapsed c ∧ disableElapsed c ≤ 4 := by
  unfold disableElapsed
  have h1 := waitElapsed_bounds c.shutdownDoneAt 2 (by norm_num)
  have h2 := waitElapsed_bounds c.threadDoneAt 2 (by norm_num)
  rcases Bool.eq_false_or_eq_true c.shouldRun with h | h <;>
    rcases Bool.eq_false_or_eq_true c.hasThread with h' | h' <;>
      simp [h, h'] <;> constructor <;> linarith [h1.1, h1.2, h2.1, h2.2]

/-- Claim C9: enable() is idempotent — a second enable() is a pure no-op
except for one diagnostic, only one background loop is started, and when
the first bind attempt succeeds the supervisory loop performs exactly one
bind attempt however many iterations run. -/
theorem claim9_idempotent_enable (bindOk : Nat → Bool) (k : Nat)
    (h0 : bindOk 0 = true) (h1 : 1 ≤ k) :
    enable (enable initState) =
      { should_run := true, listener_enabled := false,
        loopsStarted := 1, bindAttempts := 0, diags := 1 } ∧
    (runLoop bindOk k (enable (enable initState))).bindAttempts = 1 := by
  refine ⟨by decide, ?_⟩
  obtain ⟨j, rfl⟩ : ∃ j, k = j + 1 := ⟨k - 1, by omega⟩
  show (runLoop bindOk j (loopIter (bindOk _) _)).bindAttempts = 1
  have hstep : loopIter (bindOk ((enable (enable initState)).bindAttempts))
      (enable (enable initState)) =
      { should_run := true, listener_enabled := true,
        loopsStarted := 1, bindAttempts := 1, diags := 1 } := by
    have hz : (enable (enable initState)).bindAttempts = 0 := by decide
    rw [hz, h0]
    decide
  rw [hstep, runLoop_stable _ _ _ rfl]

/-- Claim C9 witness: two enables and one loop iteration under an oracle
whose first bind succeeds. -/
theorem claim9_idempotent_enable_witness :
    (fun _ : Nat => true) 0 = true ∧ 1 ≤ 1 ∧
    (enable (enable initState) =
      { should_run := true, listener_enabled := false,
        loopsStarted := 1, bindAttempts := 0, diags := 1 } ∧
     (runLoop (fun _ : Nat => true) 1 (enable (enable initState))).bindAttempts = 1) :=
  ⟨rfl, le_refl 1, claim9_idempotent_enable (fun _ => true) 1 rfl (le_refl 1)⟩

/-- Claim C10, counterexample: the empty string is a textual input outside
both keyword sets, yet the template engine's Bool coercion also yields
false there, so the claimed disagreement does not hold for every input
outside both sets. -/
theorem claim10_counterexample :
    customBoolCoerce (.scalar (.pstr [])) = false ∧
    boolCoerceB (.scalar (.pstr [])) = false ∧
    pyLower [] ∉ ["true".data, "1".data, "yes".data, "on".data] ∧
    pyLower [] ∉ ["false".data, "0".data, "no".data] := by
  decide

/-- Claim C10 as amended: the custom action's Bool coercion is true exactly
when the lower-cased textual form is one of true, 1, yes, on (the literal
True entry of the source list being dead after lower-casing); and for
every non-empty textual input outside both keyword sets the custom action
coerces false while the template engine coerces true. -/
theorem claim10_custom_bool_truth_set :
    (∀ v : PyVal, customBoolCoerce v = true ↔
      pyLower (pyStr v) ∈ ["true".data, "1".data, "yes".data, "on".data]) ∧
    (∀ s : List Char, s ≠ [] →
      pyLower s ∉ ["true".data, "1".data, "yes".data, "on".data] →
      pyLower s ∉ ["false".data, "0".data, "no".data] →
      customBoolCoerce (.scalar (.pstr s)) = false ∧
        boolCoerceB (.scalar (.pstr s)) = true) := by
  constructor
  · intro v
    have hne := pyLower_ne_True (pyStr v)
    simp only [customBoolCoerce, decide_eq_true_eq, List.mem_cons, List.not_mem_nil,
      or_false]
    tauto
  · intro s hne h4 hf
    have hT := pyLower_ne_True s
    constructor
    · simp only [customBoolCoerce, pyStr, pyStrB]
      simp only [List.mem_cons, List.not_mem_nil, or_false] at h4 ⊢
      simp only [decide_eq_false_iff_not]
      tauto
    · simp only [boolCoerceB, pyTruthy, pyTruthyB]
      have hempty : s.isEmpty = false := by
        cases s with
        | nil => exact absurd rfl hne
        | cons c cs => rfl
      rw [hempty]
      simp only [Bool.not_false, Bool.true_and, decide_eq_true_eq]
      exact hf

/-- Claim C10 witness: the amended disagreement applied to the textual
input maybe. -/
theorem claim10_custom_bool_truth_set_witness :
    "maybe".data ≠ [] ∧
    pyLower "maybe".data ∉ ["true".data, "1".data, "yes".data, "on".data] ∧
    pyLower "maybe".data ∉ ["false".data, "0".data, "no".data] ∧
    (customBoolCoerce (.scalar (.pstr "maybe".data)) = false ∧
      boolCoerceB (.scalar (.pstr "maybe".data)) = true) :=
  ⟨by decide, by decide, by decide,
   claim10_custom_bool_truth_set.2 "maybe".data (by decide) (by decide) (by decide)⟩

end OscLib
